import Mathlib

/-!
Shallow embedding of `src/streamlit_app.py`, a single-file personal budget
tracker (CRUD over a CSV-backed transaction table plus derived aggregates).

Modelling conventions:
* pandas timestamps carry no relevant time-of-day here, so a date is a
  `(year, month, day)` triple of naturals, ordered lexicographically.
* amounts are rationals (an exact model of the decimal quantities the app
  manipulates; float rounding is out of scope for every claim below).
* a dataframe is a list of rows; the pandas index is modelled explicitly as a
  `Nat` paired with each row where labels matter (the edit/delete path).
* `pd.to_datetime(-, errors=coerce)` is modelled by a concrete parser for
  dash-separated `year-month-day` digit strings; strings of any other shape
  parse to `none` (further pandas formats and calendar-range checks are not
  modelled — every date the app itself writes is of this shape).
-/

namespace BudgetTracker

/-- Calendar date, the part of a pandas timestamp this app depends on. -/
structure Date where
  year : Nat
  month : Nat
  day : Nat
deriving DecidableEq

/-- Timestamp comparison used by `sort_values(by="Date")`: lexicographic on
`(year, month, day)`. -/
def Date.leb (a b : Date) : Bool :=
  if a.year = b.year then
    if a.month = b.month then decide (a.day ≤ b.day)
    else decide (a.month < b.month)
  else decide (a.year < b.year)

/-- Month key produced by `df["Date"].dt.to_period("M").astype(str)` and by
`strftime with the year-month format`: the `"YYYY-MM"` strings compare equal exactly when the
`(year, month)` pairs do, so the key is modelled as the pair. -/
def Date.monthKey (d : Date) : Nat × Nat := (d.year, d.month)

/-- One ledger row. `ttype` models the `Type` column (`Type` is not a usable
field name in Lean); it is a raw string because the CSV can hold strings other
than `"Income"`/`"Expense"` and the aggregates compare it literally. -/
structure Transaction where
  date : Date
  ttype : String
  amount : ℚ
  category : String
deriving DecidableEq

/-- Decimal digit to character, for serializing dates. -/
def digitChar : Nat → Char
  | 0 => '0' | 1 => '1' | 2 => '2' | 3 => '3' | 4 => '4'
  | 5 => '5' | 6 => '6' | 7 => '7' | 8 => '8' | _ => '9'

/-- Character back to decimal digit value. -/
def charDigit (c : Char) : Nat := c.toNat - 48

/-- Whether a character is a decimal digit. -/
def isDigitChar (c : Char) : Bool := decide (48 ≤ c.toNat) && decide (c.toNat ≤ 57)

/-- Decimal rendering of a natural number as characters (most significant
digit first). -/
def natChars (n : Nat) : List Char :=
  if n = 0 then ['0'] else ((Nat.digits 10 n).map digitChar).reverse

/-- Parse a nonempty all-digit character run as a natural number; `none`
otherwise. -/
def charsNat (cs : List Char) : Option Nat :=
  if cs.isEmpty then none
  else if cs.all isDigitChar then some (Nat.ofDigits 10 ((cs.map charDigit).reverse))
  else none

/-- Split a character list on `'-'` separators (like `"a-b-c".split("-")`). -/
def splitDash : List Char → List (List Char)
  | [] => [[]]
  | c :: cs =>
    if c = '-' then [] :: splitDash cs
    else
      match splitDash cs with
      | [] => [[c]]
      | g :: gs => (c :: g) :: gs

/-- Serialization of a date into the CSV `Date` cell, as written by
`df.to_csv` for the timestamps this app stores. -/
def printDate (d : Date) : String :=
  ⟨natChars d.year ++ ('-' :: (natChars d.month ++ ('-' :: natChars d.day)))⟩

/-- `pd.to_datetime(cell, errors=coerce)` on one `Date` cell: parses
dash-separated `year-month-day` digit strings, `none` (NaT) otherwise. -/
def parseDate (s : String) : Option Date :=
  match splitDash s.data with
  | [y, m, dd] =>
    match charsNat y, charsNat m, charsNat dd with
    | some a, some b, some c => some ⟨a, b, c⟩
    | _, _, _ => none
  | _ => none

/-- One raw CSV data row: the `Date` cell is still text, the other three
cells already carry their typed values. -/
structure RawRow where
  date : String
  ttype : String
  amount : ℚ
  category : String
deriving DecidableEq

/-- Serialization performed by `save_data` / `df.to_csv` on a four-column
frame: one CSV row per transaction, in frame order. -/
def save_rows (df : List Transaction) : List RawRow :=
  df.map fun t => ⟨printDate t.date, t.ttype, t.amount, t.category⟩

/-- The date-parsing and `dropna` part of `load_data`, keeping the original
CSV row positions as pandas index labels (counting from `n`): rows whose
`Date` cell fails to parse are dropped, the rest keep their label. -/
def loadRowsFrom : Nat → List RawRow → List (Nat × Transaction)
  | _, [] => []
  | n, r :: rs =>
    match parseDate r.date with
    | some d => (n, ⟨d, r.ttype, r.amount, r.category⟩) :: loadRowsFrom (n + 1) rs
    | none => loadRowsFrom (n + 1) rs

/-- `load_data`: `none` models a missing backing file (the `else` branch
returning an empty typed frame); `some rs` models reading the data
rows, then `to_datetime` + `dropna(subset=["Date"])`. Total by construction:
a malformed date only ever drops its row. -/
def load_data : Option (List RawRow) → List (Nat × Transaction)
  | none => []
  | some rs => loadRowsFrom 0 rs

/-- Attach consecutive pandas labels starting at `n` to a list of rows: the
index of a frame freshly read from a clean file, or rebuilt by
`pd.concat(..., ignore_index=True)`. -/
def labelFrom : Nat → List Transaction → List (Nat × Transaction)
  | _, [] => []
  | n, t :: ts => (n, t) :: labelFrom (n + 1) ts

/-- `df[df["Type"] == "Income"]["Amount"].sum()` (line 53). -/
def total_income (df : List Transaction) : ℚ :=
  ((df.filter fun t => t.ttype == "Income").map Transaction.amount).sum

/-- `df[df["Type"] == "Expense"]["Amount"].sum()` (line 54). -/
def total_expense (df : List Transaction) : ℚ :=
  ((df.filter fun t => t.ttype == "Expense").map Transaction.amount).sum

/-- `balance = total_income - total_expense` (line 55). -/
def balance (df : List Transaction) : ℚ :=
  total_income df - total_expense df

/-- `df[df["Date"].dt.normalize() == today]` (line 65): rows dated today. -/
def df_today (df : List Transaction) (today : Date) : List Transaction :=
  df.filter fun t => t.date == today

/-- `df_today[df_today["Type"] == "Income"]["Amount"].sum()` (line 67). -/
def today_income (df : List Transaction) (today : Date) : ℚ :=
  (((df_today df today).filter fun t => t.ttype == "Income").map Transaction.amount).sum

/-- `df_today[df_today["Type"] == "Expense"]["Amount"].sum()` (line 68). -/
def today_expense (df : List Transaction) (today : Date) : ℚ :=
  (((df_today df today).filter fun t => t.ttype == "Expense").map Transaction.amount).sum

/-- `today_balance = today_income - today_expense` (line 69). -/
def today_balance (df : List Transaction) (today : Date) : ℚ :=
  today_income df today - today_expense df today

/-- `new_transactions_today = len(df_today)` (line 70). -/
def new_transactions_today (df : List Transaction) (today : Date) : Nat :=
  (df_today df today).length

/-- `df[(df["Type"] == "Expense") & (df["Month"] == current_month)]["Amount"].sum()`
(line 86), with the month key as a `(year, month)` pair. -/
def monthly_expense (df : List Transaction) (current : Nat × Nat) : ℚ :=
  ((df.filter fun t => t.ttype == "Expense" && decide (t.date.monthKey = current)).map
    Transaction.amount).sum

/-- Result of the budget check banner (lines 87-90). -/
inductive BudgetStatus where
  | withinBudget
  | overBudget
deriving DecidableEq

/-- `if monthly_expense > limit: st.error(...) else: st.success(...)`
(lines 87-90). -/
def budget_status (x limit : ℚ) : BudgetStatus :=
  if x > limit then .overBudget else .withinBudget

/-- `df.groupby(["Month", "Type"])["Amount"].sum()` (line 135): one entry per
`(month, Type)` key occurring in the frame, carrying the summed amount. The
key ordering of the groupby is not modelled (no claim concerns it). -/
def monthly_series (df : List Transaction) : List (((Nat × Nat) × String) × ℚ) :=
  ((df.map fun t => (t.date.monthKey, t.ttype)).dedup).map fun k =>
    (k, ((df.filter fun t => decide ((t.date.monthKey, t.ttype) = k)).map
      Transaction.amount).sum)

/-- `df[df["Type"] == "Expense"].groupby("Category")["Amount"].sum()`
(line 140): one entry per category occurring among Expense rows, carrying the
summed Expense amount. Key ordering is not modelled (no claim concerns it). -/
def expense_by_category (df : List Transaction) : List (String × ℚ) :=
  ((df.filter fun t => t.ttype == "Expense").map Transaction.category).dedup.map fun c =>
    (c, (((df.filter fun t => t.ttype == "Expense").filter fun t => t.category == c).map
      Transaction.amount).sum)

/-- `df.sort_values(by="Date", ascending=False)` (line 95): reorders the
rows by date descending, keeping the label of each row. Modelled with a stable
insertion sort; the default pandas sort is unstable on ties, but no claim below
depends on the relative order of equal dates. -/
def sort_values_date_desc (df : List (Nat × Transaction)) : List (Nat × Transaction) :=
  List.insertionSort (fun a b => Date.leb b.2.date a.2.date = true) df

/-- The frame shown by `st.dataframe(df_display)` and mutated by the edit
form, for a ledger freshly loaded from a clean file (labels `0..n-1` in
append order): `Month` column added (line 83), then sorted (line 95).
`df_display = df.reset_index(drop=True)` renumbers a copy for display;
position `p` of this list is display row `p`. -/
def display_frame (ledger : List Transaction) : List (Nat × Transaction) :=
  sort_values_date_desc (labelFrom 0 ledger)

/-- The update branch (lines 115-118): `df_display.index[p]` is `p` itself,
because `df_display` was built with `reset_index(drop=True)`, so
`df.loc[p, col] = ...` overwrites the four fields of the row whose *label*
is `p` in the sorted frame. Modelled for frames containing label `p` (the UI
bounds `p` to `[0, len-1]`, and labels are `0..n-1`); row enlargement by pandas
on a missing label is out of scope. -/
def update_branch (df : List (Nat × Transaction)) (p : Nat) (t : Transaction) :
    List (Nat × Transaction) :=
  df.map fun r => if r.1 = p then (r.1, t) else r

/-- The delete branch (line 124): `df.drop(df_display.index[p])` = `df.drop(p)`
removes the rows whose label is `p`. -/
def delete_branch (df : List (Nat × Transaction)) (p : Nat) :
    List (Nat × Transaction) :=
  df.filter fun r => !(r.1 == p)

/-- Whole update path from a freshly loaded ledger: build the display frame,
then run the update branch at position input `p` with new field values `t`. -/
def edit_update (ledger : List Transaction) (p : Nat) (t : Transaction) :
    List (Nat × Transaction) :=
  update_branch (display_frame ledger) p t

/-- Whole delete path from a freshly loaded ledger. -/
def edit_delete (ledger : List Transaction) (p : Nat) :
    List (Nat × Transaction) :=
  delete_branch (display_frame ledger) p

/-- The header and row order `save_data` writes for a given in-memory frame. -/
structure SavedFile where
  columns : List String
  rows : List Transaction
deriving DecidableEq

/-- The four data columns of a freshly created or freshly loaded clean file. -/
def BASE_COLUMNS : List String := ["Date", "Type", "Amount", "Category"]

/-- `save_data` as called from the add form (lines 41-43): the freshly loaded
four-column frame plus the new row appended via `pd.concat(...,
ignore_index=True)`, still in append order. -/
def save_after_add (ledger : List Transaction) (t : Transaction) : SavedFile :=
  ⟨BASE_COLUMNS, ledger ++ [t]⟩

/-- `save_data` as called from the update branch (line 119): by then the
frame has gained the derived `Month` column (line 83) and been sorted
(line 95), and both survive into the written file. -/
def save_after_update (ledger : List Transaction) (p : Nat) (t : Transaction) : SavedFile :=
  ⟨BASE_COLUMNS ++ ["Month"], (edit_update ledger p t).map Prod.snd⟩

/-- `save_data` as called from the delete branch (line 125); same extra
`Month` column and sorted order as the update branch. -/
def save_after_delete (ledger : List Transaction) (p : Nat) : SavedFile :=
  ⟨BASE_COLUMNS ++ ["Month"], (edit_delete ledger p).map Prod.snd⟩

/-- Lower bound of the amount widget of the add form:
`st.number_input("Amount (₹)", min_value=0.0)` (line 35). -/
def add_amount_min : Option ℚ := some 0

/-- Lower bound of the amount widget of the edit form: `st.number_input("Edit
Amount", value=float(row["Amount"]))` (line 105) sets no minimum. -/
def edit_amount_min : Option ℚ := none

/-- The Expense row of the end-to-end scenario of the spec. -/
def exampleExpense : Transaction := ⟨⟨2024, 3, 1⟩, "Expense", 30, "Food"⟩

/-- The Income row of the end-to-end scenario of the spec. -/
def exampleIncome : Transaction := ⟨⟨2024, 3, 2⟩, "Income", 500, "Salary"⟩

/-- The Income row with its amount edited to 501. -/
def editedIncome : Transaction := ⟨⟨2024, 3, 2⟩, "Income", 501, "Salary"⟩

/-- A row whose `Type` cell is neither `"Income"` nor `"Expense"`. -/
def fooRow : Transaction := ⟨⟨2024, 3, 5⟩, "Foo", 10, "X"⟩

/-! ### Helper lemmas: the date cell round-trips through the CSV -/

/-- Printing then reading a single decimal digit is the identity. -/
theorem charDigit_digitChar {k : Nat} (h : k < 10) : charDigit (digitChar k) = k := by
  interval_cases k <;> rfl

/-- Printed digits pass the digit test. -/
theorem isDigitChar_digitChar {k : Nat} (h : k < 10) : isDigitChar (digitChar k) = true := by
  interval_cases k <;> rfl

/-- No printed digit is the dash separator. -/
theorem digitChar_ne_dash {k : Nat} (h : k < 10) : digitChar k ≠ '-' := by
  interval_cases k <;> decide

/-- The decimal rendering of a natural number is nonempty. -/
theorem natChars_ne_nil (n : Nat) : natChars n ≠ [] := by
  unfold natChars
  split
  · simp
  · simp only [ne_eq, List.reverse_eq_nil_iff, List.map_eq_nil_iff]
    exact Nat.digits_ne_nil_iff_ne_zero.mpr (by assumption)

/-- The decimal rendering of a natural number contains no dash. -/
theorem dash_not_mem_natChars (n : Nat) : '-' ∉ natChars n := by
  unfold natChars
  split
  · decide
  · intro hmem
    rw [List.mem_reverse, List.mem_map] at hmem
    obtain ⟨k, hk, hkc⟩ := hmem
    exact digitChar_ne_dash (Nat.digits_lt_base (by norm_num) hk) hkc

/-- Every character of the decimal rendering is a digit. -/
theorem all_isDigitChar_natChars (n : Nat) : (natChars n).all isDigitChar = true := by
  unfold natChars
  split
  · decide
  · rw [List.all_eq_true]
    intro c hc
    rw [List.mem_reverse, List.mem_map] at hc
    obtain ⟨k, hk, hkc⟩ := hc
    rw [← hkc]
    exact isDigitChar_digitChar (Nat.digits_lt_base (by norm_num) hk)

/-- Reading digits back after printing is the identity on digit lists. -/
theorem map_charDigit_digitChar {l : List Nat} (h : ∀ k ∈ l, k < 10) :
    (l.map digitChar).map charDigit = l := by
  induction l with
  | nil => rfl
  | cons k l ih =>
    simp only [List.map_cons, List.cons.injEq]
    exact ⟨charDigit_digitChar (h k (by simp)), ih fun a ha => h a (by simp [ha])⟩

/-- Parsing the decimal rendering of a natural number recovers it. -/
theorem charsNat_natChars (n : Nat) : charsNat (natChars n) = some n := by
  unfold charsNat
  rw [if_neg (by simpa using natChars_ne_nil n), if_pos (all_isDigitChar_natChars n)]
  unfold natChars
  split
  next h => subst h; decide
  next _ =>
    rw [List.map_reverse, List.reverse_reverse,
      map_charDigit_digitChar fun k hk => Nat.digits_lt_base (by norm_num) hk,
      Nat.ofDigits_digits]

/-- Splitting a dash-free run yields that single run. -/
theorem splitDash_no_dash {A : List Char} (h : '-' ∉ A) : splitDash A = [A] := by
  induction A with
  | nil => rfl
  | cons c A ih =>
    have hc : c ≠ '-' := fun hc => h (hc ▸ List.mem_cons_self c A)
    have hA : '-' ∉ A := fun hA => h (List.mem_cons_of_mem c hA)
    simp only [splitDash, if_neg hc, ih hA]

/-- Splitting a dash-free run followed by a dash peels off that run. -/
theorem splitDash_append {A rest : List Char} (h : '-' ∉ A) :
    splitDash (A ++ '-' :: rest) = A :: splitDash rest := by
  induction A with
  | nil => simp [splitDash]
  | cons c A ih =>
    have hc : c ≠ '-' := fun hc => h (hc ▸ List.mem_cons_self c A)
    have hA : '-' ∉ A := fun hA => h (List.mem_cons_of_mem c hA)
    simp only [List.cons_append, splitDash, List.append_eq, if_neg hc, ih hA]

/-- A serialized date parses back to the same date (the round-trip at the
heart of `load(save(L)) = L`). -/
theorem parseDate_printDate (d : Date) : parseDate (printDate d) = some d := by
  unfold parseDate printDate
  dsimp only
  rw [splitDash_append (dash_not_mem_natChars d.year),
    splitDash_append (dash_not_mem_natChars d.month),
    splitDash_no_dash (dash_not_mem_natChars d.day)]
  simp only [charsNat_natChars]

/-! ### Frame and filter helper lemmas -/

/-- Dropping the labels of a freshly labelled frame recovers the ledger. -/
theorem labelFrom_map_snd : ∀ (n : Nat) (L : List Transaction),
    (labelFrom n L).map Prod.snd = L
  | _, [] => rfl
  | n, t :: ts => by
    simp [labelFrom, labelFrom_map_snd (n + 1) ts]

/-- The labels of a freshly labelled frame are the consecutive range. -/
theorem mem_labelFrom_map_fst : ∀ (L : List Transaction) (n p : Nat),
    p ∈ (labelFrom n L).map Prod.fst ↔ n ≤ p ∧ p < n + L.length
  | [], n, p => by
    simp only [labelFrom, List.map_nil, List.not_mem_nil, List.length_nil, false_iff]
    omega
  | t :: ts, n, p => by
    simp only [labelFrom, List.map_cons, List.mem_cons, List.length_cons,
      mem_labelFrom_map_fst ts (n + 1) p]
    omega

/-- Parsing the serialized rows back reproduces the frame row by row. -/
theorem loadRowsFrom_save_rows (L : List Transaction) :
    ∀ n, loadRowsFrom n (save_rows L) = labelFrom n L := by
  induction L with
  | nil => intro n; rfl
  | cons t ts ih =>
    intro n
    show loadRowsFrom n (⟨printDate t.date, t.ttype, t.amount, t.category⟩ :: save_rows ts)
      = labelFrom n (t :: ts)
    simp only [loadRowsFrom, parseDate_printDate, labelFrom]
    rw [ih (n + 1)]

/-- Membership in the loaded frame, characterized against the raw file: a
labelled row is loaded exactly when the file has a raw row at that position
whose date parses to the date of the row and whose other cells match. -/
theorem mem_loadRowsFrom (rs : List RawRow) : ∀ (n i : Nat) (t : Transaction),
    ((i, t) ∈ loadRowsFrom n rs) ↔
      ∃ j r, rs[j]? = some r ∧ i = n + j ∧ parseDate r.date = some t.date ∧
        r.ttype = t.ttype ∧ r.amount = t.amount ∧ r.category = t.category := by
  induction rs with
  | nil => intro n i t; simp [loadRowsFrom]
  | cons r rs ih =>
    intro n i t
    simp only [loadRowsFrom]
    cases hp : parseDate r.date with
    | none =>
      rw [ih (n + 1) i t]
      constructor
      · rintro ⟨j, r', h1, h2, h3, h4, h5, h6⟩
        refine ⟨j + 1, r', by simpa using h1, ?_, h3, h4, h5, h6⟩
        omega
      · rintro ⟨j, r', h1, h2, h3, h4, h5, h6⟩
        cases j with
        | zero =>
          simp only [List.getElem?_cons_zero, Option.some.injEq] at h1
          subst h1
          rw [hp] at h3
          exact absurd h3 (by simp)
        | succ j =>
          refine ⟨j, r', by simpa using h1, ?_, h3, h4, h5, h6⟩
          omega
    | some d =>
      rw [List.mem_cons, ih (n + 1) i t]
      constructor
      · rintro (heq | ⟨j, r', h1, h2, h3, h4, h5, h6⟩)
        · rw [Prod.mk.injEq] at heq
          obtain ⟨hi, ht⟩ := heq
          subst ht
          refine ⟨0, r, by simp, ?_, ?_, rfl, rfl, rfl⟩
          · omega
          · exact hp
        · refine ⟨j + 1, r', by simpa using h1, ?_, h3, h4, h5, h6⟩
          omega
      · rintro ⟨j, r', h1, h2, h3, h4, h5, h6⟩
        cases j with
        | zero =>
          left
          simp only [List.getElem?_cons_zero, Option.some.injEq] at h1
          subst h1
          rw [hp] at h3
          have hd := Option.some.inj h3
          have hi : i = n := by omega
          rw [hi, h4, h5, h6, hd]
        | succ j =>
          refine Or.inr ⟨j, r', by simpa using h1, ?_, h3, h4, h5, h6⟩
          omega

/-- Two successive boolean filters collapse into one conjunctive filter. -/
theorem filter_then_filter {α : Type} (p q : α → Bool) (l : List α) :
    (l.filter p).filter q = l.filter fun a => p a && q a := by
  induction l with
  | nil => rfl
  | cons a l ih => cases hp : p a <;> cases hq : q a <;> simp [List.filter_cons, hp, hq, ih]

/-- A row rejected by the filter can be inserted anywhere without changing
the filtered list. -/
theorem filter_middle_false {α : Type} (p : α → Bool) (pre post : List α) (t : α)
    (h : p t = false) :
    (pre ++ t :: post).filter p = (pre ++ post).filter p := by
  simp [List.filter_append, List.filter_cons, h]

/-- Summing amounts of the rows that pass a filter, written as one fold. -/
theorem sum_filter_foldr (p : Transaction → Bool) (df : List Transaction) :
    ((df.filter p).map Transaction.amount).sum
      = df.foldr (fun t acc => if p t then t.amount + acc else acc) 0 := by
  induction df with
  | nil => rfl
  | cons t df ih => cases hp : p t <;> simp [List.filter_cons, hp, ih]

/-! ### Claim theorems -/

/-- C3: saving a ledger and reloading the written file yields exactly the
same sequence of (date, type, amount, category) rows. Every `Date` of the
embedding is a valid date, which is the precondition of the claim; the date cell
round-trips modulo string normalization by `parseDate_printDate`. -/
theorem c3_save_load_round_trip (L : List Transaction) :
    (load_data (some (save_rows L))).map Prod.snd = L := by
  show (loadRowsFrom 0 (save_rows L)).map Prod.snd = L
  rw [loadRowsFrom_save_rows, labelFrom_map_snd]

/-- C5: a missing backing file loads as the empty typed table, and for a
present file a labelled row is loaded exactly when the raw row at that
position has a date that parses (to the date of the loaded row) and matching
remaining cells — so rows with unparseable dates are silently dropped,
every loaded row carries a validly parsed date, and `load_data` is a total
function (malformed dates never raise to the caller). -/
theorem c5_load_missing_empty_and_drops_bad_dates :
    load_data none = [] ∧
    ∀ (rs : List RawRow) (i : Nat) (t : Transaction),
      ((i, t) ∈ load_data (some rs) ↔
        ∃ r, rs[i]? = some r ∧ parseDate r.date = some t.date ∧
          r.ttype = t.ttype ∧ r.amount = t.amount ∧ r.category = t.category) := by
  refine ⟨rfl, fun rs i t => ?_⟩
  show (i, t) ∈ loadRowsFrom 0 rs ↔ _
  rw [mem_loadRowsFrom]
  constructor
  · rintro ⟨j, r, h1, h2, h3, h4, h5, h6⟩
    have hj : j = i := by omega
    subst hj
    exact ⟨r, h1, h3, h4, h5, h6⟩
  · rintro ⟨r, h1, h3, h4, h5, h6⟩
    exact ⟨i, r, h1, by omega, h3, h4, h5, h6⟩

/-- C6: the income total is the sum of the amounts of rows typed `"Income"`,
the expense total the sum over rows typed `"Expense"`, the balance is income
minus expense, and all three are 0 on the empty ledger. -/
theorem c6_totals (df : List Transaction) :
    total_income df
      = df.foldr (fun t acc => if t.ttype = "Income" then t.amount + acc else acc) 0 ∧
    total_expense df
      = df.foldr (fun t acc => if t.ttype = "Expense" then t.amount + acc else acc) 0 ∧
    balance df = total_income df - total_expense df ∧
    total_income [] = 0 ∧ total_expense [] = 0 ∧ balance [] = 0 := by
  refine ⟨?_, ?_, rfl, rfl, rfl, ?_⟩
  · rw [total_income, sum_filter_foldr]
    simp only [beq_iff_eq]
  · rw [total_expense, sum_filter_foldr]
    simp only [beq_iff_eq]
  · show (0 : ℚ) - 0 = 0
    norm_num

/-- C7: the budget check reports over budget exactly when the monthly
expense strictly exceeds the limit; spending equal to the limit is within
budget, and any positive excess over the limit is over budget. -/
theorem c7_budget_boundary (x limit ε : ℚ) :
    (budget_status x limit = BudgetStatus.overBudget ↔ limit < x) ∧
    budget_status x x = BudgetStatus.withinBudget ∧
    (0 < ε → budget_status (x + ε) x = BudgetStatus.overBudget) := by
  refine ⟨?_, ?_, fun hε => ?_⟩
  · unfold budget_status
    split
    next h => simp [h]
    next h => simp [h]
  · unfold budget_status
    rw [if_neg (lt_irrefl x)]
  · unfold budget_status
    rw [if_pos (by linarith)]

/-- C7 witness: concrete instances at the boundary. -/
theorem c7_budget_boundary_witness :
    budget_status 2 2 = BudgetStatus.withinBudget ∧
    budget_status (2 + 1) 2 = BudgetStatus.overBudget :=
  ⟨(c7_budget_boundary 2 2 1).2.1, (c7_budget_boundary 2 2 1).2.2 (by norm_num)⟩

/-- C1 (failing-input demonstration): on the ledger
`[exampleExpense, exampleIncome]` the date-descending display shows the
Income row at position 0, yet `editTransaction(0, ...)` leaves the Income
row unchanged and overwrites the Expense row — the row at display position 1
— because `df_display.index[0]` is `0` after `reset_index(drop=True)` and
`df.loc[0]` addresses the append-order label, not the display position. -/
theorem c1_update_targets_label_not_position :
    (display_frame [exampleExpense, exampleIncome]).map Prod.snd
      = [exampleIncome, exampleExpense] ∧
    (edit_update [exampleExpense, exampleIncome] 0 editedIncome).map Prod.snd
      = [exampleIncome, editedIncome] := by
  constructor <;> decide

/-- C2 (failing-input demonstration): in the end-to-end scenario of the spec the
Expense row sits at display position 1, but `deleteTransaction(1)` drops
label 1 — the Income row — leaving only the Expense row with totals
`(0, 30, -30)` instead of the claimed `(500, 0, 500)`. -/
theorem c2_delete_targets_label_not_position :
    (display_frame [exampleExpense, exampleIncome]).map Prod.fst = [1, 0] ∧
    (edit_delete [exampleExpense, exampleIncome] 1).map Prod.snd = [exampleExpense] ∧
    total_income [exampleExpense] = 0 ∧
    total_expense [exampleExpense] = 30 ∧
    balance [exampleExpense] = -30 := by
  refine ⟨by decide, by decide, by decide, ?_, ?_⟩
  · simp [total_expense, exampleExpense]
  · have hI : total_income [exampleExpense] = 0 := by decide
    have hE : total_expense [exampleExpense] = 30 := by simp [total_expense, exampleExpense]
    rw [balance, hI, hE]
    norm_num

/-- C4 (failing-input demonstration): the file written on the update and
delete paths carries a fifth `Month` column (line 83 runs before the line
119/125 saves) and its rows in date-descending display order (line 95), not
the claimed four columns in append order. The update here rewrites label 0
with its existing values, so the stored transactions are unchanged and the
reordering is exhibited in isolation from the position-addressing bug of C1:
the append order is `[exampleExpense, exampleIncome]`, the file order is the
reverse. The delete on a three-row ledger likewise leaves the two surviving
rows in display order, the reverse of their append order. Only the add path
writes the four base columns in append order. -/
theorem c4_edit_save_has_month_column_and_sorted_rows :
    (save_after_update [exampleExpense, exampleIncome] 0 exampleExpense).columns
      = BASE_COLUMNS ++ ["Month"] ∧
    (save_after_update [exampleExpense, exampleIncome] 0 exampleExpense).columns
      ≠ BASE_COLUMNS ∧
    (save_after_update [exampleExpense, exampleIncome] 0 exampleExpense).rows
      = [exampleIncome, exampleExpense] ∧
    [exampleIncome, exampleExpense] ≠ [exampleExpense, exampleIncome] ∧
    (save_after_delete [exampleExpense, exampleIncome, fooRow] 0).columns
      = BASE_COLUMNS ++ ["Month"] ∧
    (save_after_delete [exampleExpense, exampleIncome, fooRow] 0).rows
      = [fooRow, exampleIncome] ∧
    [fooRow, exampleIncome] ≠ [exampleIncome, fooRow] ∧
    (save_after_add [exampleExpense] exampleIncome).columns = BASE_COLUMNS ∧
    (save_after_add [exampleExpense] exampleIncome).rows
      = [exampleExpense, exampleIncome] := by
  refine ⟨rfl, by decide, by decide, by decide, rfl, by decide, by decide, rfl, rfl⟩

/-- C8: the category breakdown is insensitive to non-Expense rows (filtering
the ledger down to its Expense rows first changes nothing), every entry it
contains is the sum of the Expense amounts of that category, and it is empty
whenever the ledger has no Expense row. -/
theorem c8_category_breakdown (df : List Transaction) :
    expense_by_category df
      = expense_by_category (df.filter fun t => t.ttype == "Expense") ∧
    (∀ c s, (c, s) ∈ expense_by_category df →
      s = ((df.filter fun t => t.ttype == "Expense" && t.category == c).map
        Transaction.amount).sum) ∧
    ((∀ t ∈ df, t.ttype ≠ "Expense") → expense_by_category df = []) := by
  refine ⟨?_, ?_, ?_⟩
  · simp only [expense_by_category, filter_then_filter, Bool.and_self]
  · intro c s h
    simp only [expense_by_category, List.mem_map] at h
    obtain ⟨c', _, heq⟩ := h
    rw [Prod.mk.injEq] at heq
    obtain ⟨hc, hs⟩ := heq
    subst hc
    rw [← hs, filter_then_filter]
  · intro h
    have hnil : df.filter (fun t => t.ttype == "Expense") = [] := by
      rw [List.filter_eq_nil_iff]
      intro t ht
      simpa using h t ht
    simp [expense_by_category, hnil]

/-- C8 witness: the example ledger from the spec, and a ledger with no Expense
rows. -/
theorem c8_category_breakdown_witness :
    ((30 : ℚ) = (([exampleExpense, exampleIncome].filter
        fun t => t.ttype == "Expense" && t.category == "Food").map
      Transaction.amount).sum) ∧
    expense_by_category [exampleIncome] = [] :=
  ⟨(c8_category_breakdown [exampleExpense, exampleIncome]).2.1 "Food" 30
      (by simp [expense_by_category, exampleExpense, exampleIncome]),
    (c8_category_breakdown [exampleIncome]).2.2 (by decide)⟩

/-- C9 counterexample: a row typed `"Foo"` does contribute to two of the
aggregates the claim lists — it appears in the monthly series under its own
`(month, "Foo")` key, and it is counted by the transaction count for today. -/
theorem c9_counterexample :
    monthly_series [fooRow] ≠ monthly_series [] ∧
    new_transactions_today [fooRow] ⟨2024, 3, 5⟩
      ≠ new_transactions_today [] ⟨2024, 3, 5⟩ := by
  constructor <;> decide

/-- C9 as amended: a row whose `Type` is neither `"Income"` nor `"Expense"`
contributes to neither total, nor to the balance, the income for today, expense
and net, the monthly expense, or the category breakdown, while remaining
stored in the ledger — but it does count in the transaction count for today and
does appear in the monthly series under its own type. -/
theorem c9_unknown_type_invisible_to_typed_aggregates
    (pre post : List Transaction) (t : Transaction) (today : Date) (ym : Nat × Nat)
    (hIncome : t.ttype ≠ "Income") (hExpense : t.ttype ≠ "Expense") :
    total_income (pre ++ t :: post) = total_income (pre ++ post) ∧
    total_expense (pre ++ t :: post) = total_expense (pre ++ post) ∧
    balance (pre ++ t :: post) = balance (pre ++ post) ∧
    today_income (pre ++ t :: post) today = today_income (pre ++ post) today ∧
    today_expense (pre ++ t :: post) today = today_expense (pre ++ post) today ∧
    today_balance (pre ++ t :: post) today = today_balance (pre ++ post) today ∧
    monthly_expense (pre ++ t :: post) ym = monthly_expense (pre ++ post) ym ∧
    expense_by_category (pre ++ t :: post) = expense_by_category (pre ++ post) ∧
    t ∈ pre ++ t :: post := by
  have hIb : (t.ttype == "Income") = false := by simpa using hIncome
  have hEb : (t.ttype == "Expense") = false := by simpa using hExpense
  have h1 : total_income (pre ++ t :: post) = total_income (pre ++ post) := by
    rw [total_income, total_income,
      filter_middle_false (fun x => x.ttype == "Income") pre post t hIb]
  have h2 : total_expense (pre ++ t :: post) = total_expense (pre ++ post) := by
    rw [total_expense, total_expense,
      filter_middle_false (fun x => x.ttype == "Expense") pre post t hEb]
  have h4 : today_income (pre ++ t :: post) today = today_income (pre ++ post) today := by
    rw [today_income, today_income, df_today, df_today, filter_then_filter,
      filter_then_filter,
      filter_middle_false (fun x => (x.date == today) && (x.ttype == "Income")) pre post t
        (by simp [hIb])]
  have h5 : today_expense (pre ++ t :: post) today = today_expense (pre ++ post) today := by
    rw [today_expense, today_expense, df_today, df_today, filter_then_filter,
      filter_then_filter,
      filter_middle_false (fun x => (x.date == today) && (x.ttype == "Expense")) pre post t
        (by simp [hEb])]
  have h7 : monthly_expense (pre ++ t :: post) ym = monthly_expense (pre ++ post) ym := by
    rw [monthly_expense, monthly_expense,
      filter_middle_false (fun x => x.ttype == "Expense" && decide (x.date.monthKey = ym))
        pre post t (by simp [hEb])]
  refine ⟨h1, h2, by rw [balance, balance, h1, h2], h4, h5,
    by rw [today_balance, today_balance, h4, h5], h7, ?_, by simp⟩
  rw [expense_by_category, expense_by_category,
    filter_middle_false (fun x => x.ttype == "Expense") pre post t hEb]

/-- C9 witness: the unknown-typed row leaves the income total untouched yet
is still stored. -/
theorem c9_unknown_type_invisible_witness :
    total_income [exampleIncome, fooRow] = total_income [exampleIncome] ∧
    fooRow ∈ [exampleIncome, fooRow] :=
  ⟨(c9_unknown_type_invisible_to_typed_aggregates [exampleIncome] [] fooRow
      ⟨2024, 3, 5⟩ (2024, 3) (by decide) (by decide)).1,
    (c9_unknown_type_invisible_to_typed_aggregates [exampleIncome] [] fooRow
      ⟨2024, 3, 5⟩ (2024, 3) (by decide) (by decide)).2.2.2.2.2.2.2.2⟩

/-- C10: the update branch stores whatever amount the caller supplies — for
any negative value `v` and any valid position-label `p`, the edited row with
amount `v` is present in the updated frame and `v` persists into the saved
file; the `min_value=0.0` bound exists only on the widget of the add form, the
amount widget of the edit form has no lower bound. -/
theorem c10_edit_accepts_negative_amounts (L : List Transaction) (p : Nat) (d : Date)
    (ty cat : String) (v : ℚ) (hv : v < 0) (hp : p < L.length) :
    (p, Transaction.mk d ty v cat) ∈ edit_update L p (Transaction.mk d ty v cat) ∧
    v ∈ ((save_after_update L p (Transaction.mk d ty v cat)).rows.map Transaction.amount) ∧
    add_amount_min = some 0 ∧ edit_amount_min = none := by
  have hperm : List.Perm (display_frame L) (labelFrom 0 L) :=
    List.perm_insertionSort _ _
  have hmem : p ∈ (display_frame L).map Prod.fst :=
    ((hperm.map Prod.fst).mem_iff).mpr
      ((mem_labelFrom_map_fst L 0 p).mpr ⟨by omega, by omega⟩)
  obtain ⟨r, hr, hrp⟩ := List.mem_map.mp hmem
  have hupd : (p, Transaction.mk d ty v cat)
      ∈ edit_update L p (Transaction.mk d ty v cat) := by
    rw [edit_update, update_branch]
    exact List.mem_map.mpr ⟨r, hr, by rw [if_pos hrp, hrp]⟩
  refine ⟨hupd, ?_, rfl, rfl⟩
  exact List.mem_map.mpr
    ⟨Transaction.mk d ty v cat, List.mem_map.mpr ⟨_, hupd, rfl⟩, rfl⟩

/-- C10 witness: editing the amount of the single displayed row to `-5`. -/
theorem c10_edit_accepts_negative_amounts_witness :
    (0, Transaction.mk ⟨2024, 3, 1⟩ "Expense" (-5) "Food")
      ∈ edit_update [exampleExpense] 0 (Transaction.mk ⟨2024, 3, 1⟩ "Expense" (-5) "Food") ∧
    (-5 : ℚ) ∈ ((save_after_update [exampleExpense] 0
      (Transaction.mk ⟨2024, 3, 1⟩ "Expense" (-5) "Food")).rows.map Transaction.amount) :=
  ⟨(c10_edit_accepts_negative_amounts [exampleExpense] 0 ⟨2024, 3, 1⟩ "Expense" "Food" (-5)
      (by norm_num) (by decide)).1,
    (c10_edit_accepts_negative_amounts [exampleExpense] 0 ⟨2024, 3, 1⟩ "Expense" "Food" (-5)
      (by norm_num) (by decide)).2.1⟩

end BudgetTracker
